import Mathlib

/-!
Verification of the composition core of `tracing-subscriber`
(`src/tracing-subscriber/src/subscribe.rs`).

The embedding models the `Subscribe` (observer) and `Collect` (authoritative
collector) capabilities as records of behavior functions.  Every operation
that, in the Rust source, may perform side effects is modelled as a pure
function that additionally returns a trace (`List ε`, for an arbitrary entry
type `ε`) of the effects it performs; composing operations concatenates the
traces in execution order.  "Participant P method was never invoked" is then
observable as: P trace does not occur in the composed trace, for every
choice of behavior record.

Opaque value types (`Metadata`, `span::Id`, `Attributes`, `Record`, `Event`)
are modelled as natural-number handles; the code under verification never
inspects their structure, only passes them along and (for span ids) compares
them for equality, which the model preserves.
-/

namespace Tracing

/-- Callsite metadata handle (`tracing_core::Metadata`); opaque to the
composition code. -/
abbrev Metadata := Nat

/-- Span identifier (`tracing_core::span::Id`); opaque, compared by
equality. -/
abbrev SpanId := Nat

/-- Span-creation attributes (`tracing_core::span::Attributes`); opaque. -/
abbrev Attributes := Nat

/-- Span field-update payload (`tracing_core::span::Record`); opaque. -/
abbrev Record := Nat

/-- Event payload (`tracing_core::Event`); opaque. -/
abbrev Event := Nat

/-- Rust `tracing_core::span::Current`: either a current span id or the
"no current span" value (`span::Current::none`), modelled as `none`. -/
abbrev Current := Option SpanId

/-- Rust `tracing_core::collect::Interest`: tri-state callsite filtering
verdict. -/
inductive Interest where
  | always
  | sometimes
  | never
  deriving DecidableEq, Repr

/-- Rust `Interest::is_never`. -/
def Interest.is_never : Interest → Bool
  | .never => true
  | _ => false

/-- Rust `Interest::is_sometimes`. -/
def Interest.is_sometimes : Interest → Bool
  | .sometimes => true
  | _ => false

/-- Rust `tracing_core::metadata::LevelFilter`: `OFF < ERROR < WARN < INFO <
DEBUG < TRACE`. -/
inductive LevelFilter where
  | off
  | error
  | warn
  | info
  | debug
  | trace
  deriving DecidableEq, Repr

/-- Numeric rank realising the `LevelFilter` order used by its `Ord`
implementation. -/
def LevelFilter.toNat : LevelFilter → Nat
  | .off => 0
  | .error => 1
  | .warn => 2
  | .info => 3
  | .debug => 4
  | .trace => 5

/-- Rust `std::cmp::max` on two `LevelFilter`s: the second argument when the
first compares less-or-equal, otherwise the first. -/
def LevelFilter.cmpMax (a b : LevelFilter) : LevelFilter :=
  if a.toNat ≤ b.toNat then b else a

/-- Rust `std::cmp::max` on `Option<LevelFilter>`, with the `Ord` instance on
`Option` under which `None` is less than every `Some`. -/
def optLevelMax : Option LevelFilter → Option LevelFilter → Option LevelFilter
  | none, b => b
  | some a, none => some a
  | some a, some b => some (LevelFilter.cmpMax a b)

/-- The `Collect` capability (`tracing_core::collect::Collect`), as the
behavior record of one authoritative collector.  Each fallible-by-effect
method returns its result paired with the trace of effects it performs. -/
structure Collect (ε : Type) where
  register_callsite : Metadata → Interest × List ε
  enabled : Metadata → Bool × List ε
  max_level_hint : Option LevelFilter
  new_span : Attributes → SpanId × List ε
  record : SpanId → Record → List ε
  record_follows_from : SpanId → SpanId → List ε
  event : Event → List ε
  enter : SpanId → List ε
  exit : SpanId → List ε
  clone_span : SpanId → SpanId × List ε
  try_close : SpanId → Bool × List ε
  current_span : Current

/-- Rust `Context`: an optional borrowed view of the wrapped collector, or
`none` when no live collector exists (during callsite registration). -/
abbrev Context (ε : Type) := Option (Collect ε)

/-- Rust `Context::none()` (subscribe.rs lines 1131-1135): the context with no
live collector. -/
def Context.none {ε : Type} : Context ε := Option.none

/-- Rust `Context::current_span` (lines 953-959): the wrapped collector view of
the current span, or `span::Current::none()` when there is no collector. -/
def Context.current_span {ε : Type} : Context ε → Current
  | some c => c.current_span
  | Option.none => (Option.none : Current)

/-- Rust `Context::enabled` (lines 963-971): the wrapped collector `enabled`
verdict, or `true` (with no effects) when there is no collector. -/
def Context.enabled {ε : Type} : Context ε → Metadata → Bool × List ε
  | some c, metadata => c.enabled metadata
  | Option.none, _ => (true, [])

/-- Rust `Context::event` (lines 993-997): forward the event to the wrapped
collector, a no-op when there is no collector. -/
def Context.event {ε : Type} : Context ε → Event → List ε
  | some c, e => c.event e
  | Option.none, _ => []

/-- The `Subscribe` capability, as the behavior record of one observer.
`max_level_hint` is effect-free in the source, so it carries no trace. -/
structure Subscribe (ε : Type) where
  register_callsite : Metadata → Interest × List ε
  enabled : Metadata → Context ε → Bool × List ε
  new_span : Attributes → SpanId → Context ε → List ε
  max_level_hint : Option LevelFilter
  on_record : SpanId → Record → Context ε → List ε
  on_follows_from : SpanId → SpanId → Context ε → List ε
  on_event : Event → Context ε → List ε
  on_enter : SpanId → Context ε → List ε
  on_exit : SpanId → Context ε → List ε
  on_close : SpanId → Context ε → List ε
  on_id_change : SpanId → SpanId → Context ε → List ε

/-- Rust `Layered<S, C>` in collector-facing mode: an observer (`subscriber`,
the later-added child) wrapping the authoritative collector (`inner`). -/
structure LayeredCollect (ε : Type) where
  subscriber : Subscribe ε
  inner : Collect ε

/-- Rust `Layered<A, B, C>` in nested observer mode: the later-added observer
(`subscriber`) wrapping the earlier-added chain (`inner`); from
`Subscribe::and_then`, `a.and_then(b)` yields `subscriber := b`,
`inner := a`. -/
structure LayeredSubscribe (ε : Type) where
  subscriber : Subscribe ε
  inner : Subscribe ε

namespace LayeredCollect

variable {ε : Type}

/-- Rust `Layered::ctx` (lines 926-931): the live context viewing
`self.inner`. -/
def ctx (L : LayeredCollect ε) : Context ε := some L.inner

/-- Rust `Collect::register_callsite` for `Layered<S, C>` (lines 599-616). -/
def register_callsite (L : LayeredCollect ε) (metadata : Metadata) :
    Interest × List ε :=
  let outer := L.subscriber.register_callsite metadata
  if outer.fst.is_never then
    outer
  else
    let inner := L.inner.register_callsite metadata
    if outer.fst.is_sometimes then
      (outer.fst, outer.snd ++ inner.snd)
    else
      (inner.fst, outer.snd ++ inner.snd)

/-- Rust `Collect::enabled` for `Layered<S, C>` (lines 618-626). -/
def enabled (L : LayeredCollect ε) (metadata : Metadata) : Bool × List ε :=
  let outer := L.subscriber.enabled metadata L.ctx
  if outer.fst then
    let inner := L.inner.enabled metadata
    (inner.fst, outer.snd ++ inner.snd)
  else
    (false, outer.snd)

/-- Rust `Collect::max_level_hint` for `Layered<S, C>` (lines 628-633):
`std::cmp::max(self.subscriber.max_level_hint(), self.inner.max_level_hint())`. -/
def max_level_hint (L : LayeredCollect ε) : Option LevelFilter :=
  optLevelMax L.subscriber.max_level_hint L.inner.max_level_hint

/-- Rust `Collect::new_span` for `Layered<S, C>` (lines 635-639). -/
def new_span (L : LayeredCollect ε) (span : Attributes) : SpanId × List ε :=
  let idt := L.inner.new_span span
  let t2 := L.subscriber.new_span span idt.fst L.ctx
  (idt.fst, idt.snd ++ t2)

/-- Rust `Collect::record` for `Layered<S, C>` (lines 641-644). -/
def record (L : LayeredCollect ε) (span : SpanId) (values : Record) : List ε :=
  L.inner.record span values ++ L.subscriber.on_record span values L.ctx

/-- Rust `Collect::record_follows_from` for `Layered<S, C>` (lines 646-649). -/
def record_follows_from (L : LayeredCollect ε) (span follows : SpanId) : List ε :=
  L.inner.record_follows_from span follows ++
    L.subscriber.on_follows_from span follows L.ctx

/-- Rust `Collect::event` for `Layered<S, C>` (lines 651-654). -/
def event (L : LayeredCollect ε) (e : Event) : List ε :=
  L.inner.event e ++ L.subscriber.on_event e L.ctx

/-- Rust `Collect::enter` for `Layered<S, C>` (lines 656-659). -/
def enter (L : LayeredCollect ε) (span : SpanId) : List ε :=
  L.inner.enter span ++ L.subscriber.on_enter span L.ctx

/-- Rust `Collect::exit` for `Layered<S, C>` (lines 661-664). -/
def exit (L : LayeredCollect ε) (span : SpanId) : List ε :=
  L.inner.exit span ++ L.subscriber.on_exit span L.ctx

/-- Rust `Collect::clone_span` for `Layered<S, C>` (lines 666-672). -/
def clone_span (L : LayeredCollect ε) (old : SpanId) : SpanId × List ε :=
  let nt := L.inner.clone_span old
  if nt.fst ≠ old then
    (nt.fst, nt.snd ++ L.subscriber.on_id_change old nt.fst L.ctx)
  else
    (nt.fst, nt.snd)

/-- Rust `Collect::try_close` for `Layered<S, C>` (lines 679-701), with the
`registry`-feature-gated close-guard coordination omitted (the `Registry`
type is outside this crate source; the guard does not alter the verdict
or the `on_close` notification). -/
def try_close (L : LayeredCollect ε) (id : SpanId) : Bool × List ε :=
  let r := L.inner.try_close id
  if r.fst then
    (true, r.snd ++ L.subscriber.on_close id L.ctx)
  else
    (false, r.snd)

/-- Rust `Collect::current_span` for `Layered<S, C>` (lines 703-706). -/
def current_span (L : LayeredCollect ε) : Current :=
  L.inner.current_span

end LayeredCollect

namespace LayeredSubscribe

variable {ε : Type}

/-- Rust `Subscribe::register_callsite` for `Layered<A, B, C>` (lines 725-742). -/
def register_callsite (N : LayeredSubscribe ε) (metadata : Metadata) :
    Interest × List ε :=
  let outer := N.subscriber.register_callsite metadata
  if outer.fst.is_never then
    outer
  else
    let inner := N.inner.register_callsite metadata
    if outer.fst.is_sometimes then
      (outer.fst, outer.snd ++ inner.snd)
    else
      (inner.fst, outer.snd ++ inner.snd)

/-- Rust `Subscribe::enabled` for `Layered<A, B, C>` (lines 744-752), translated
exactly as written: when `self.subscriber.enabled(..)` holds, the source
calls `self.subscriber.enabled(..)` a second time (not `self.inner`). -/
def enabled (N : LayeredSubscribe ε) (metadata : Metadata) (ctx : Context ε) :
    Bool × List ε :=
  let outer := N.subscriber.enabled metadata ctx
  if outer.fst then
    let again := N.subscriber.enabled metadata ctx
    (again.fst, outer.snd ++ again.snd)
  else
    (false, outer.snd)

/-- Rust `Subscribe::max_level_hint` for `Layered<A, B, C>`: the `Subscribe`
impl at lines 719-811 does not override `max_level_hint`, so the trait
default (lines 310-313), which returns `None`, applies. -/
def max_level_hint (_ : LayeredSubscribe ε) : Option LevelFilter :=
  none

/-- Rust `Subscribe::new_span` for `Layered<A, B, C>` (lines 754-758):
earlier-added child first, later-added child second. -/
def new_span (N : LayeredSubscribe ε) (attrs : Attributes) (id : SpanId)
    (ctx : Context ε) : List ε :=
  N.inner.new_span attrs id ctx ++ N.subscriber.new_span attrs id ctx

/-- Rust `Subscribe::on_record` for `Layered<A, B, C>` (lines 760-764). -/
def on_record (N : LayeredSubscribe ε) (span : SpanId) (values : Record)
    (ctx : Context ε) : List ε :=
  N.inner.on_record span values ctx ++ N.subscriber.on_record span values ctx

/-- Rust `Subscribe::on_follows_from` for `Layered<A, B, C>` (lines 766-770). -/
def on_follows_from (N : LayeredSubscribe ε) (span follows : SpanId)
    (ctx : Context ε) : List ε :=
  N.inner.on_follows_from span follows ctx ++
    N.subscriber.on_follows_from span follows ctx

/-- Rust `Subscribe::on_event` for `Layered<A, B, C>` (lines 772-776). -/
def on_event (N : LayeredSubscribe ε) (e : Event) (ctx : Context ε) : List ε :=
  N.inner.on_event e ctx ++ N.subscriber.on_event e ctx

/-- Rust `Subscribe::on_enter` for `Layered<A, B, C>` (lines 778-782). -/
def on_enter (N : LayeredSubscribe ε) (id : SpanId) (ctx : Context ε) : List ε :=
  N.inner.on_enter id ctx ++ N.subscriber.on_enter id ctx

/-- Rust `Subscribe::on_exit` for `Layered<A, B, C>` (lines 784-788). -/
def on_exit (N : LayeredSubscribe ε) (id : SpanId) (ctx : Context ε) : List ε :=
  N.inner.on_exit id ctx ++ N.subscriber.on_exit id ctx

/-- Rust `Subscribe::on_close` for `Layered<A, B, C>` (lines 790-794). -/
def on_close (N : LayeredSubscribe ε) (id : SpanId) (ctx : Context ε) : List ε :=
  N.inner.on_close id ctx ++ N.subscriber.on_close id ctx

/-- Rust `Subscribe::on_id_change` for `Layered<A, B, C>` (lines 796-800). -/
def on_id_change (N : LayeredSubscribe ε) (old new : SpanId)
    (ctx : Context ε) : List ε :=
  N.inner.on_id_change old new ctx ++ N.subscriber.on_id_change old new ctx

end LayeredSubscribe

/-! Concrete behavior records used to exercise the theorems on explicit
inputs.  `nopSubscribe` realises the `Subscribe` trait default method
bodies (as the `Identity` subscriber does): `enabled` is `true`,
`register_callsite` is therefore `Interest::always()`, every notification
is a no-op, and `max_level_hint` is `None`.  `nopCollect` mirrors the
`NopCollector` test collector of the source (interest `never`, `enabled`
false, span id 1). -/

/-- The `Subscribe` default behaviors (the `Identity` subscriber). -/
def nopSubscribe (ε : Type) : Subscribe ε where
  register_callsite := fun _ => (Interest.always, [])
  enabled := fun _ _ => (true, [])
  new_span := fun _ _ _ => []
  max_level_hint := none
  on_record := fun _ _ _ => []
  on_follows_from := fun _ _ _ => []
  on_event := fun _ _ => []
  on_enter := fun _ _ => []
  on_exit := fun _ _ => []
  on_close := fun _ _ => []
  on_id_change := fun _ _ _ => []

/-- A no-op collector in the mould of the source `NopCollector` test
collector. -/
def nopCollect (ε : Type) : Collect ε where
  register_callsite := fun _ => (Interest.never, [])
  enabled := fun _ => (false, [])
  max_level_hint := none
  new_span := fun _ => (1, [])
  record := fun _ _ => []
  record_follows_from := fun _ _ => []
  event := fun _ => []
  enter := fun _ => []
  exit := fun _ => []
  clone_span := fun id => (id, [])
  try_close := fun _ => (false, [])
  current_span := none

/-- Collector-facing node whose observer vetoes every callsite, emitting
trace entry 5 while doing so. -/
def c1L : LayeredCollect Nat :=
  ⟨{ nopSubscribe Nat with register_callsite := fun _ => (Interest.never, [5]) },
    nopCollect Nat⟩

/-- Nested node whose later-added child reports `sometimes` interest,
emitting trace entry 6. -/
def c1N : LayeredSubscribe Nat :=
  ⟨{ nopSubscribe Nat with register_callsite := fun _ => (Interest.sometimes, [6]) },
    nopSubscribe Nat⟩

/-- Nested node whose later-added child enables everything (emitting 1) and
whose earlier-added child disables everything (emitting 2). -/
def c2N : LayeredSubscribe Nat :=
  ⟨{ nopSubscribe Nat with enabled := fun _ _ => (true, [1]) },
    { nopSubscribe Nat with enabled := fun _ _ => (false, [2]) }⟩

/-- Collector-facing node whose observer disables everything, emitting 3. -/
def c3L : LayeredCollect Nat :=
  ⟨{ nopSubscribe Nat with enabled := fun _ _ => (false, [3]) }, nopCollect Nat⟩

/-- Collector-facing node whose collector mints span id 7 (emitting 9) and
whose observer `new_span` notification emits 4. -/
def c4L : LayeredCollect Nat :=
  ⟨{ nopSubscribe Nat with new_span := fun _ _ _ => [4] },
    { nopCollect Nat with new_span := fun _ => (7, [9]) }⟩

/-- Collector-facing node whose collector retires every span (emitting 8)
and whose observer `on_close` emits 5. -/
def c5L : LayeredCollect Nat :=
  ⟨{ nopSubscribe Nat with on_close := fun _ _ => [5] },
    { nopCollect Nat with try_close := fun _ => (true, [8]) }⟩

/-- Collector-facing node whose collector clones id `i` to `i + 1` and whose
observer `on_id_change` emits 6. -/
def c6L : LayeredCollect Nat :=
  ⟨{ nopSubscribe Nat with on_id_change := fun _ _ _ => [6] },
    { nopCollect Nat with clone_span := fun id => (id + 1, []) }⟩

/-- Collector-facing node with a silent observer and a collector hinting
`WARN`. -/
def c8L : LayeredCollect Nat :=
  ⟨nopSubscribe Nat, { nopCollect Nat with max_level_hint := some LevelFilter.warn }⟩

/-- Nested node whose later-added child hints `WARN` and whose earlier-added
child has no hint. -/
def c9N : LayeredSubscribe Nat :=
  ⟨{ nopSubscribe Nat with max_level_hint := some LevelFilter.warn },
    nopSubscribe Nat⟩

/-- C1: for both composition modes, `register_callsite` queries the outer
(later-added) participant first; an outer `Never` short-circuits (the inner
participant is never invoked — no inner trace appears — and the composed
result is `Never`); otherwise the inner participant is invoked and the
composed result is `Sometimes` when the outer result was `Sometimes`, else
the inner result. -/
theorem c1_register_callsite_spec {ε : Type} (L : LayeredCollect ε)
    (N : LayeredSubscribe ε) (m : Metadata) :
    (∀ t, L.subscriber.register_callsite m = (Interest.never, t) →
        L.register_callsite m = (Interest.never, t)) ∧
    (∀ o t1 i t2, L.subscriber.register_callsite m = (o, t1) →
        o ≠ Interest.never → L.inner.register_callsite m = (i, t2) →
        L.register_callsite m =
          ((if o = Interest.sometimes then Interest.sometimes else i), t1 ++ t2)) ∧
    (∀ t, N.subscriber.register_callsite m = (Interest.never, t) →
        N.register_callsite m = (Interest.never, t)) ∧
    (∀ o t1 i t2, N.subscriber.register_callsite m = (o, t1) →
        o ≠ Interest.never → N.inner.register_callsite m = (i, t2) →
        N.register_callsite m =
          ((if o = Interest.sometimes then Interest.sometimes else i), t1 ++ t2)) := by
  refine ⟨?_, ?_, ?_, ?_⟩
  · intro t h
    simp [LayeredCollect.register_callsite, h, Interest.is_never]
  · intro o t1 i t2 h1 h2 h3
    cases o with
    | never => exact absurd rfl h2
    | always =>
        simp [LayeredCollect.register_callsite, h1, h3, Interest.is_never,
          Interest.is_sometimes]
    | sometimes =>
        simp [LayeredCollect.register_callsite, h1, h3, Interest.is_never,
          Interest.is_sometimes]
  · intro t h
    simp [LayeredSubscribe.register_callsite, h, Interest.is_never]
  · intro o t1 i t2 h1 h2 h3
    cases o with
    | never => exact absurd rfl h2
    | always =>
        simp [LayeredSubscribe.register_callsite, h1, h3, Interest.is_never,
          Interest.is_sometimes]
    | sometimes =>
        simp [LayeredSubscribe.register_callsite, h1, h3, Interest.is_never,
          Interest.is_sometimes]

/-- Witness for C1: on `c1L` the outer veto short-circuits (only the outer
trace 5 appears); on `c1N` the outer `sometimes` wins while the inner is
still invoked. -/
theorem c1_register_callsite_witness :
    LayeredCollect.register_callsite c1L 0 = (Interest.never, [5]) ∧
    LayeredSubscribe.register_callsite c1N 0 = (Interest.sometimes, [6]) := by
  constructor
  · exact (c1_register_callsite_spec c1L c1N 0).1 [5] rfl
  · simpa using
      (c1_register_callsite_spec c1L c1N 0).2.2.2 Interest.sometimes [6]
        Interest.always [] rfl (by decide) rfl

/-- C2 (code bug): the nested `Subscribe::enabled` never consults the
earlier-added (inner) child.  On `c2N` — later-added child enabled (trace 1),
earlier-added child disabled (trace 2) — the composed check returns `true`
and its trace is `[1, 1]` (the later-added child `enabled` invoked twice,
the earlier-added child never: no 2 appears), for every earlier-added
child `B` whatsoever.  The claim (and the source own comment "ask the
inner subscriber", as well as the trait documentation top-down
short-circuit contract) requires the result `false` here. -/
theorem c2_nested_enabled_failing_input :
    LayeredSubscribe.enabled c2N 0 Context.none = (true, [1, 1]) ∧
    (∀ B : Subscribe Nat,
      LayeredSubscribe.enabled ⟨c2N.subscriber, B⟩ 0 Context.none = (true, [1, 1])) := by
  exact ⟨rfl, fun _ => rfl⟩

/-- C3: collector-facing `enabled` asks the observer first, with the live
context `some inner`; observer `false` short-circuits (composed result
`false`, no collector trace); observer `true` defers to the collector
verdict. -/
theorem c3_collect_enabled_spec {ε : Type} (L : LayeredCollect ε)
    (m : Metadata) :
    (∀ t, L.subscriber.enabled m (some L.inner) = (false, t) →
        L.enabled m = (false, t)) ∧
    (∀ t, L.subscriber.enabled m (some L.inner) = (true, t) →
        L.enabled m = ((L.inner.enabled m).fst, t ++ (L.inner.enabled m).snd)) := by
  constructor
  · intro t h
    simp [LayeredCollect.enabled, LayeredCollect.ctx, h]
  · intro t h
    simp [LayeredCollect.enabled, LayeredCollect.ctx, h]

/-- Witness for C3: on `c3L` the observer veto (trace 3) short-circuits
and the collector `enabled` trace never appears. -/
theorem c3_collect_enabled_witness :
    LayeredCollect.enabled c3L 0 = (false, [3]) :=
  (c3_collect_enabled_spec c3L 0).1 [3] rfl

/-- C4: collector-facing `new_span` asks the collector to mint the id first,
then notifies the observer with the same attributes, the minted id, and the
live context `some inner`, and returns exactly the minted id. -/
theorem c4_new_span_spec {ε : Type} (L : LayeredCollect ε)
    (attrs : Attributes) :
    ∀ id t, L.inner.new_span attrs = (id, t) →
      L.new_span attrs =
        (id, t ++ L.subscriber.new_span attrs id (some L.inner)) := by
  intro id t h
  simp [LayeredCollect.new_span, LayeredCollect.ctx, h]

/-- Witness for C4: on `c4L` the collector mints id 7 (trace 9), then the
observer is notified (trace 4), and 7 is returned. -/
theorem c4_new_span_witness :
    LayeredCollect.new_span c4L 2 = (7, [9, 4]) := by
  simpa using c4_new_span_spec c4L 2 7 [9] rfl

/-- C5: collector-facing `try_close` returns exactly the collector
verdict; the observer `on_close` trace is appended exactly once when the
verdict is `true`, and never when it is `false`. -/
theorem c5_try_close_spec {ε : Type} (L : LayeredCollect ε) (id : SpanId) :
    (∀ t, L.inner.try_close id = (true, t) →
        L.try_close id = (true, t ++ L.subscriber.on_close id (some L.inner))) ∧
    (∀ t, L.inner.try_close id = (false, t) →
        L.try_close id = (false, t)) := by
  constructor
  · intro t h
    simp [LayeredCollect.try_close, LayeredCollect.ctx, h]
  · intro t h
    simp [LayeredCollect.try_close, LayeredCollect.ctx, h]

/-- Witness for C5: on `c5L` the span fully retires (collector trace 8),
`on_close` fires exactly once (trace 5), and `true` is returned; on the
no-op collector (verdict `false`) `on_close` never fires. -/
theorem c5_try_close_witness :
    LayeredCollect.try_close c5L 1 = (true, [8, 5]) ∧
    LayeredCollect.try_close ⟨c5L.subscriber, nopCollect Nat⟩ 1 = (false, []) := by
  constructor
  · simpa using (c5_try_close_spec c5L 1).1 [8] rfl
  · exact (c5_try_close_spec ⟨c5L.subscriber, nopCollect Nat⟩ 1).2 [] rfl

/-- C6: collector-facing `clone_span` returns the collector cloned id;
`on_id_change (old, new)` is appended exactly once when the cloned id
differs from the original, and never when it is unchanged. -/
theorem c6_clone_span_spec {ε : Type} (L : LayeredCollect ε) (old : SpanId) :
    (∀ nw t, L.inner.clone_span old = (nw, t) → nw ≠ old →
        L.clone_span old =
          (nw, t ++ L.subscriber.on_id_change old nw (some L.inner))) ∧
    (∀ t, L.inner.clone_span old = (old, t) →
        L.clone_span old = (old, t)) := by
  constructor
  · intro nw t h hne
    simp [LayeredCollect.clone_span, LayeredCollect.ctx, h, hne]
  · intro t h
    simp [LayeredCollect.clone_span, LayeredCollect.ctx, h]

/-- Witness for C6: on `c6L` cloning id 1 yields the changed id 2, so
`on_id_change` fires once (trace 6); on the no-op collector the id is
unchanged and `on_id_change` never fires. -/
theorem c6_clone_span_witness :
    LayeredCollect.clone_span c6L 1 = (2, [6]) ∧
    LayeredCollect.clone_span ⟨c6L.subscriber, nopCollect Nat⟩ 1 = (1, []) := by
  constructor
  · simpa using (c6_clone_span_spec c6L 1).1 2 [] rfl (by decide)
  · exact (c6_clone_span_spec ⟨c6L.subscriber, nopCollect Nat⟩ 1).2 [] rfl

/-- C7: every notification of the nested node invokes the earlier-added
(inner) child strictly before the later-added (outer) child, both with the
same payload: the composed trace is the inner trace followed by the outer
trace, for all eight notification methods. -/
theorem c7_notification_order {ε : Type} (N : LayeredSubscribe ε)
    (attrs : Attributes) (id old nw span follows : SpanId) (values : Record)
    (e : Event) (ctx : Context ε) :
    N.new_span attrs id ctx =
      N.inner.new_span attrs id ctx ++ N.subscriber.new_span attrs id ctx ∧
    N.on_record span values ctx =
      N.inner.on_record span values ctx ++ N.subscriber.on_record span values ctx ∧
    N.on_follows_from span follows ctx =
      N.inner.on_follows_from span follows ctx ++
        N.subscriber.on_follows_from span follows ctx ∧
    N.on_event e ctx =
      N.inner.on_event e ctx ++ N.subscriber.on_event e ctx ∧
    N.on_enter id ctx =
      N.inner.on_enter id ctx ++ N.subscriber.on_enter id ctx ∧
    N.on_exit id ctx =
      N.inner.on_exit id ctx ++ N.subscriber.on_exit id ctx ∧
    N.on_close id ctx =
      N.inner.on_close id ctx ++ N.subscriber.on_close id ctx ∧
    N.on_id_change old nw ctx =
      N.inner.on_id_change old nw ctx ++ N.subscriber.on_id_change old nw ctx :=
  ⟨rfl, rfl, rfl, rfl, rfl, rfl, rfl, rfl⟩

/-- C8: collector-facing `max_level_hint` is the pairwise maximum with
absence as the minimum: if exactly one side has a hint, that hint wins; if
both do, the larger (by the `LevelFilter` order) wins; the result is absent
exactly when both sides are silent. -/
theorem c8_max_level_hint_spec {ε : Type} (L : LayeredCollect ε) :
    (L.subscriber.max_level_hint = none →
        L.max_level_hint = L.inner.max_level_hint) ∧
    (L.inner.max_level_hint = none →
        L.max_level_hint = L.subscriber.max_level_hint) ∧
    (∀ a b, L.subscriber.max_level_hint = some a →
        L.inner.max_level_hint = some b →
        L.max_level_hint = some (LevelFilter.cmpMax a b) ∧
        (LevelFilter.cmpMax a b).toNat = max a.toNat b.toNat) ∧
    (L.max_level_hint = none ↔
        L.subscriber.max_level_hint = none ∧ L.inner.max_level_hint = none) := by
  refine ⟨?_, ?_, ?_, ?_⟩
  · intro h
    simp [LayeredCollect.max_level_hint, h, optLevelMax]
  · intro h
    cases hs : L.subscriber.max_level_hint with
    | none => simp [LayeredCollect.max_level_hint, h, hs, optLevelMax]
    | some a => simp [LayeredCollect.max_level_hint, h, hs, optLevelMax]
  · intro a b ha hb
    constructor
    · simp [LayeredCollect.max_level_hint, ha, hb, optLevelMax]
    · unfold LevelFilter.cmpMax
      rcases Nat.le_total a.toNat b.toNat with hle | hle
      · simp [hle, Nat.max_eq_right hle]
      · rcases Nat.lt_or_ge a.toNat b.toNat with hlt | hge
        · simp [Nat.le_of_lt hlt, Nat.max_eq_right (Nat.le_of_lt hlt)]
        · by_cases heq : a.toNat ≤ b.toNat
          · simp [heq, Nat.max_eq_right heq]
          · simp [heq, Nat.max_eq_left (Nat.le_of_not_le heq)]
  · cases hs : L.subscriber.max_level_hint with
    | none =>
        cases hi : L.inner.max_level_hint with
        | none => simp [LayeredCollect.max_level_hint, hs, hi, optLevelMax]
        | some b => simp [LayeredCollect.max_level_hint, hs, hi, optLevelMax]
    | some a =>
        cases hi : L.inner.max_level_hint with
        | none => simp [LayeredCollect.max_level_hint, hs, hi, optLevelMax]
        | some b => simp [LayeredCollect.max_level_hint, hs, hi, optLevelMax]

/-- Witness for C8: a silent observer combined with a collector hinting
`WARN` yields `WARN`. -/
theorem c8_max_level_hint_witness :
    LayeredCollect.max_level_hint c8L = some LevelFilter.warn := by
  simpa using (c8_max_level_hint_spec c8L).1 rfl

/-- C9 counterexample: the nested node `c9N` (later-added child hints
`WARN`, earlier-added child silent) does not return the pairwise maximum of
its children hints (`WARN`) — the `Subscribe` impl for `Layered` never
overrides `max_level_hint`, so the composed hint is `none`. -/
theorem c9_nested_hint_counterexample :
    LayeredSubscribe.max_level_hint c9N ≠
      optLevelMax c9N.subscriber.max_level_hint c9N.inner.max_level_hint := by
  decide

/-- C9 amended: the nested composition node `max_level_hint` is the trait
default — `none`, regardless of either child hint. -/
theorem c9_nested_hint_amended {ε : Type} (N : LayeredSubscribe ε) :
    LayeredSubscribe.max_level_hint N = none :=
  rfl

/-- C10: every read operation of the empty context returns its defined
default: `current_span` is the no-current-span value, `enabled` is `true`
(with no collector effects), and `event` records nothing. -/
theorem c10_empty_context_defaults {ε : Type} (m : Metadata) (e : Event) :
    Context.current_span (Context.none : Context ε) = (none : Current) ∧
    Context.enabled (Context.none : Context ε) m = (true, []) ∧
    Context.event (Context.none : Context ε) e = [] :=
  ⟨rfl, rfl, rfl⟩

end Tracing
